import Mathlib

/-!
Shallow embedding of the safechild-lite backend components that the spec's
testable properties talk about: the emergency severity classifier
(backend/api/emergency.py), the SMS rate limiter (backend/services/smsService.py),
the TTS file cache (backend/services/ttsService.py) and the chatbot fallback
path (backend/services/gptService.py).  Machine integers are modelled as
Nat/Int (no overflow is reachable in the Python source), Python `None` as
`Option`, Python dictionaries as association lists, and external SDK calls
(Twilio, gTTS, OpenAI) as oracle function parameters.
-/

/-! ### Python string primitives -/

/-- Python `s.lower()`, modelled characterwise with `Char.toLower` (all
keywords and trigger words in the source are ASCII). -/
def pyLower (s : String) : String := ⟨s.data.map Char.toLower⟩

/-- Python `s.strip()`: drop leading and trailing whitespace. -/
def pyStrip (s : String) : String :=
  ⟨((s.data.dropWhile Char.isWhitespace).reverse.dropWhile Char.isWhitespace).reverse⟩

/-- Python's substring test `needle in hay`, on the character lists of the two
strings: some suffix of `hay` starts with `needle`.  (`"" in s` is `True`.) -/
def containsSub (needle : List Char) : List Char → Bool
  | [] => needle.isPrefixOf []
  | c :: rest => needle.isPrefixOf (c :: rest) || containsSub needle rest

/-- Python `needle in hay` on strings. -/
def strIn (needle hay : String) : Bool :=
  containsSub needle.data hay.data

/-- Python `str(b)` for a bool: "True" / "False" (used in the TTS cache key
f-string). -/
def pyBoolStr (b : Bool) : String := if b then "True" else "False"

/-- Python `d.get(k, default)` on a string-valued dict, modelled as an
association list with unique keys. -/
def dictGet (d : List (String × String)) (k : String) (default : String) : String :=
  match d.find? (fun p => p.1 == k) with
  | some p => p.2
  | none => default

/-- Python `k in d` on a dict modelled as an association list. -/
def dictHasKey (d : List (String × String)) (k : String) : Bool :=
  d.any (fun p => p.1 == k)

/-! ### Emergency severity classifier (backend/api/emergency.py) -/

/-- `EmergencyAPI.critical_keywords` (emergency.py lines 97-101). -/
def critical_keywords : List String :=
  ["hurt", "pain", "bleeding", "unconscious", "not breathing",
   "choking", "fire", "explosion", "weapon", "gun", "knife",
   "attack", "assault", "kidnapping", "missing", "lost"]

/-- `EmergencyAPI.high_keywords` (emergency.py lines 103-106). -/
def high_keywords : List String :=
  ["scared", "afraid", "threat", "danger", "bully", "harassment",
   "abuse", "touch", "private", "secret", "follow", "stranger"]

/-- `EmergencyAPI.determine_emergency_level` (emergency.py lines 112-133).
Lowercasing is modelled with `pyLower`.  `if emergency_type:` treats both `None` and the empty string as
falsy, so both fall through to the default "medium". -/
def determine_emergency_level (description : String) (emergency_type : Option String) : String :=
  let description_lower := pyLower description
  if critical_keywords.any (fun keyword => strIn keyword description_lower) then
    "critical"
  else if high_keywords.any (fun keyword => strIn keyword description_lower) then
    "high"
  else
    match emergency_type with
    | some et =>
      if et.isEmpty then "medium"
      else
        let type_lower := pyLower et
        if ["immediate", "danger", "medical", "abuse"].any (fun word => strIn word type_lower) then
          "high"
        else if ["lost", "missing", "bullying"].any (fun word => strIn word type_lower) then
          "medium"
        else "medium"
    | none => "medium"

/-- `EmergencyContact` pydantic model (emergency.py lines 21-24). -/
structure EmergencyContact where
  name : String
  phone : String
  relationship : String
deriving DecidableEq

/-- `EmergencyRequest` pydantic model (emergency.py lines 26-33); the
`coordinates` field plays no role in any modelled code path and is omitted. -/
structure EmergencyRequest where
  location : String
  description : String
  contacts : List EmergencyContact
  timestamp : Option String := none
  user_id : Option String := none
  emergency_type : Option String := none
deriving DecidableEq

/-- `EmergencyAPI.validate_emergency_data` (emergency.py lines 173-192);
Python `strip` is modelled by `pyStrip`. -/
def validate_emergency_data (data : EmergencyRequest) : List String :=
  (if (pyStrip data.location).isEmpty then ["Location is required"] else []) ++
  (if (pyStrip data.description).isEmpty then ["Emergency description is required"] else []) ++
  (if data.contacts.isEmpty then ["At least one emergency contact is required"]
   else data.contacts.foldr
     (fun contact acc =>
       (if (pyStrip contact.name).isEmpty then ["Contact name is required"] else []) ++
       (if (pyStrip contact.phone).isEmpty then ["Contact phone number is required"] else []) ++ acc)
     [])

/-- The `emergency_level` field of the response computed by
`EmergencyAPI.process_emergency` (emergency.py lines 247-303), projected onto
the classification path: on validation errors the handler raises (modelled as
`none`); otherwise line 259-262 computes the level as
`determine_emergency_level(request.description, request.timestamp)` — the
second argument is the request's `timestamp`, not its `emergency_type`. -/
def process_emergency_emergency_level (request : EmergencyRequest) : Option String :=
  if !(validate_emergency_data request).isEmpty then none
  else some (determine_emergency_level request.description request.timestamp)

/-- The type-hint trigger check of the claim: the timestamp is `None`, empty
(falsy), or its lowercased form contains none of the seven trigger substrings
inspected by `determine_emergency_level`. -/
def ts_no_trigger : Option String → Bool
  | none => true
  | some ts =>
    ts.isEmpty ||
      (!(["immediate", "danger", "medical", "abuse"].any (fun word => strIn word (pyLower ts))) &&
       !(["lost", "missing", "bullying"].any (fun word => strIn word (pyLower ts))))

/-! ### Theorems: claims C6 and C7 -/

/-- C6: for every description whose lowercase form contains a critical keyword
as a substring, `determine_emergency_level` returns "critical", whatever the
rest of the description and the type-hint argument are. -/
theorem C6_critical_keyword_gives_critical (description : String) (emergency_type : Option String)
    (h : (critical_keywords.any fun keyword => strIn keyword (pyLower description)) = true) :
    determine_emergency_level description emergency_type = "critical" := by
  unfold determine_emergency_level
  simp [h]

/-- Witness for C6 at a concrete input: "Child is BLEEDING badly" with type
hint "info". -/
theorem C6_witness :
    (critical_keywords.any fun keyword => strIn keyword (pyLower "Child is BLEEDING badly")) = true ∧
    determine_emergency_level "Child is BLEEDING badly" (some "info") = "critical" :=
  ⟨by decide, C6_critical_keyword_gives_critical "Child is BLEEDING badly" (some "info") (by decide)⟩

/-- C7: for every description whose lowercase form contains no critical and no
high keyword, the type hint "missing" yields "medium" (the first trigger group
does not fire on "missing", the second does). -/
theorem C7_missing_hint_gives_medium (description : String)
    (hc : (critical_keywords.any fun keyword => strIn keyword (pyLower description)) = false)
    (hh : (high_keywords.any fun keyword => strIn keyword (pyLower description)) = false) :
    determine_emergency_level description (some "missing") = "medium" := by
  unfold determine_emergency_level
  simp only [hc, hh, Bool.false_eq_true, if_false]
  decide

/-- Witness for C7 at a concrete input: description "all ok", which contains
no critical and no high keyword. -/
theorem C7_witness :
    (critical_keywords.any fun keyword => strIn keyword (pyLower "all ok")) = false ∧
    (high_keywords.any fun keyword => strIn keyword (pyLower "all ok")) = false ∧
    determine_emergency_level "all ok" (some "missing") = "medium" :=
  ⟨by decide, by decide, C7_missing_hint_gives_medium "all ok" (by decide) (by decide)⟩

/-! ### Theorem: claim C10 -/

/-- C10: `process_emergency` hands the classifier the request's timestamp, not
its `emergency_type`: for a request with valid data whose description contains
no critical or high keyword, the response's `emergency_level` does not depend
on `emergency_type`, equals the level derived from the timestamp string, and is
"medium" whenever the timestamp carries no trigger substring (including the
`None` default). -/
theorem C10_level_from_timestamp (request : EmergencyRequest) (et : Option String)
    (hc : (critical_keywords.any fun keyword => strIn keyword (pyLower request.description)) = false)
    (hh : (high_keywords.any fun keyword => strIn keyword (pyLower request.description)) = false)
    (hval : validate_emergency_data request = []) :
    process_emergency_emergency_level { request with emergency_type := et }
        = process_emergency_emergency_level request ∧
    process_emergency_emergency_level request
        = some (determine_emergency_level request.description request.timestamp) ∧
    (ts_no_trigger request.timestamp = true →
      process_emergency_emergency_level request = some "medium") := by
  refine ⟨rfl, ?_, ?_⟩
  · unfold process_emergency_emergency_level
    rw [hval]
    rfl
  · intro hts
    unfold process_emergency_emergency_level
    rw [hval]
    simp only [List.isEmpty_nil, Bool.not_false, if_false, Option.some.injEq]
    unfold determine_emergency_level
    simp only [hc, hh, Bool.false_eq_true, if_false]
    cases hstamp : request.timestamp with
    | none => rfl
    | some ts =>
      rw [hstamp] at hts
      unfold ts_no_trigger at hts
      by_cases hempty : ts.isEmpty
      · simp [hempty]
      · simp only [hempty, Bool.false_or, Bool.and_eq_true, Bool.not_eq_true'] at hts
        simp [hempty, hts.1, hts.2]

/-- Witness for C10 at a concrete request (description "all ok", timestamp
"2024-01-01 10:00:00", emergency_type "abuse", replacement hint
"kidnapping"). -/
theorem C10_witness :
    process_emergency_emergency_level
        { location := "park", description := "all ok",
          contacts := [{ name := "mom", phone := "5551234567", relationship := "parent" }],
          timestamp := some "2024-01-01 10:00:00",
          emergency_type := some "abuse" } = some "medium" := by
  have h := C10_level_from_timestamp
    { location := "park", description := "all ok",
      contacts := [{ name := "mom", phone := "5551234567", relationship := "parent" }],
      timestamp := some "2024-01-01 10:00:00",
      emergency_type := some "abuse" }
    (some "kidnapping") (by decide) (by decide) (by decide)
  exact h.2.2 (by decide)

/-! ### SMS service (backend/services/smsService.py)

`SMSService` state: the rate-limit configuration (read from the environment at
construction, defaults 100/hour and 1000/day) and the mutable counters
(smsService.py lines 42-49).  `datetime.now()` values are modelled as seconds
since the epoch; `dt.date()` then corresponds to the day number `t / 86400`.
Configuration fields that never influence the modelled functions
(`max_message_length`, retry settings, Twilio credentials, fallback methods)
are omitted.  The outcome of `_send_single_sms` for a given recipient is
external (Twilio / fallback IO) and is modelled by an oracle
`send : String → Bool`. -/

structure SMSState where
  max_sms_per_hour : Nat
  max_sms_per_day : Nat
  sms_sent_count : Nat
  sms_sent_today : Nat
  last_sms_reset : Nat
deriving DecidableEq

/-- Python `dt.date()` comparison support: the calendar day of an epoch-second
timestamp. -/
def dateOf (t : Nat) : Nat := t / 86400

/-- The daily-reset block of `SMSService._check_rate_limits` (smsService.py
lines 623-626): when `current_time.date() > self.last_sms_reset.date()`, zero
`sms_sent_today` and move `last_sms_reset` to now. -/
def daily_reset (s : SMSState) (now : Nat) : SMSState :=
  if dateOf s.last_sms_reset < dateOf now
  then { s with sms_sent_today := 0, last_sms_reset := now }
  else s

/-- `SMSService._check_rate_limits` (smsService.py lines 618-640): apply the
daily reset, then test the hourly counter (without the batch size) and the
daily counter (with it).  The method mutates the service, so it returns the
new state alongside the boolean.  No statement in the body can raise, so the
`except` arm (lines 638-640) is unreachable. -/
def check_rate_limits (s : SMSState) (now : Nat) (additional_sms : Nat) : Bool × SMSState :=
  let s1 := daily_reset s now
  if s1.max_sms_per_hour ≤ s1.sms_sent_count then (false, s1)
  else if s1.max_sms_per_day < s1.sms_sent_today + additional_sms then (false, s1)
  else (true, s1)

/-- `SMSService._validate_alert_data` (smsService.py lines 509-512). -/
def validate_alert_data (alert_data : List (String × String)) : Bool :=
  ["location", "contact_number"].all (fun field => dictHasKey alert_data field)

/-- The keys of `SMSService.emergency_templates` (smsService.py lines 62-79). -/
def emergency_template_keys : List String :=
  ["sos_alert", "safety_concern", "incident_report", "status_update"]

/-- The `template.format(...)` call of `_prepare_emergency_message`
(smsService.py lines 555-564), expanded per template with the `.get` defaults
of that call. -/
def format_emergency_template (alert_type : String) (alert_data : List (String × String)) : String :=
  if alert_type == "sos_alert" then
    "🚨 EMERGENCY ALERT: " ++ dictGet alert_data "child_name" "Child" ++
    " needs immediate assistance at " ++ dictGet alert_data "location" "Unknown location" ++
    ". Contact: " ++ dictGet alert_data "contact_number" "Unknown" ++
    ". Priority: " ++ dictGet alert_data "priority" "High"
  else if alert_type == "safety_concern" then
    "⚠️ SAFETY CONCERN: " ++ dictGet alert_data "description" "Safety concern" ++
    ". Location: " ++ dictGet alert_data "location" "Unknown location" ++
    ". Contact: " ++ dictGet alert_data "contact_number" "Unknown"
  else if alert_type == "incident_report" then
    "📝 INCIDENT REPORT: " ++ dictGet alert_data "incident_type" "Incident" ++
    " reported at " ++ dictGet alert_data "location" "Unknown location" ++
    ". Status: " ++ dictGet alert_data "status" "Reported" ++
    ". Contact: " ++ dictGet alert_data "contact_number" "Unknown"
  else
    "📊 STATUS UPDATE: " ++ dictGet alert_data "update_type" "Update" ++
    " - " ++ dictGet alert_data "description" "Safety concern" ++
    ". Contact: " ++ dictGet alert_data "contact_number" "Unknown"

/-- `SMSService._prepare_emergency_message` (smsService.py lines 541-570):
`None` when the alert type is not a template key, otherwise the filled
template (the fill never raises: every placeholder is supplied). -/
def prepare_emergency_message (alert_data : List (String × String)) (alert_type : String) :
    Option String :=
  if emergency_template_keys.contains alert_type then
    some (format_emergency_template alert_type alert_data)
  else none

/-- `SMSService._prepare_safety_message` (smsService.py lines 572-595):
`None` when the type is not a template key; the `format` call at line 585
supplies only `description`, `location` and `contact_number`, so every
template except `safety_concern` references an unsupplied placeholder, raises
`KeyError`, and the handler at line 593 returns `None`; `safety_concern`
formats successfully. -/
def prepare_safety_message (notification_data : List (String × String))
    (notification_type : String) : Option String :=
  if notification_type == "safety_concern" then
    some ("⚠️ SAFETY CONCERN: " ++ dictGet notification_data "description" "Safety notification" ++
      ". Location: " ++ dictGet notification_data "location" "Unknown location" ++
      ". Contact: " ++ dictGet notification_data "contact_number" "Unknown")
  else none

/-- `SMSService._prepare_status_message` (smsService.py lines 597-616): always
uses the `status_update` template, whose placeholders are all supplied. -/
def prepare_status_message (update_data : List (String × String)) : Option String :=
  some ("📊 STATUS UPDATE: " ++ dictGet update_data "update_type" "Status update" ++
    " - " ++ dictGet update_data "description" "No details provided" ++
    ". Contact: " ++ dictGet update_data "contact_number" "Unknown")

/-- The subset of the result dictionaries of the `send_*` methods that the
claims inspect (`success`, `error`, `sent_count`); the remaining keys
(`total_recipients`, per-recipient `results`, timestamps) are omitted. -/
structure SendResult where
  success : Bool
  error : Option String
  sent_count : Nat
deriving DecidableEq

/-- `SMSService.send_emergency_alert` (smsService.py lines 88-159): empty
recipient list and invalid alert data are rejected before the rate check; a
failed rate check rejects with "Rate limit exceeded" (after the check has
already applied its daily reset to the service state); a missing template
rejects; otherwise one `_send_single_sms` per recipient (oracle `send`) and
both counters grow by the number of successes. -/
def send_emergency_alert (s : SMSState) (alert_data : List (String × String))
    (recipients : List String) (alert_type : String) (now : Nat) (send : String → Bool) :
    SendResult × SMSState :=
  if recipients.isEmpty then
    ({ success := false, error := some "No recipients specified", sent_count := 0 }, s)
  else if !validate_alert_data alert_data then
    ({ success := false, error := some "Invalid alert data", sent_count := 0 }, s)
  else
    let checked := check_rate_limits s now recipients.length
    if !checked.1 then
      ({ success := false, error := some "Rate limit exceeded", sent_count := 0 }, checked.2)
    else
      match prepare_emergency_message alert_data alert_type with
      | none =>
        ({ success := false, error := some "Failed to prepare emergency message", sent_count := 0 },
         checked.2)
      | some message =>
        if message.isEmpty then
          ({ success := false, error := some "Failed to prepare emergency message", sent_count := 0 },
           checked.2)
        else
          let successful_sends := (recipients.filter send).length
          ({ success := decide (0 < successful_sends), error := none,
             sent_count := successful_sends },
           { checked.2 with
               sms_sent_count := checked.2.sms_sent_count + successful_sends,
               sms_sent_today := checked.2.sms_sent_today + successful_sends })

/-- `SMSService.send_safety_notification` (smsService.py lines 161-213): no
rate-limit check; counters grow by the number of successful sends. -/
def send_safety_notification (s : SMSState) (notification_data : List (String × String))
    (recipients : List String) (notification_type : String) (send : String → Bool) :
    SendResult × SMSState :=
  if recipients.isEmpty then
    ({ success := false, error := some "No recipients specified", sent_count := 0 }, s)
  else
    match prepare_safety_message notification_data notification_type with
    | none =>
      ({ success := false, error := some "Failed to prepare safety message", sent_count := 0 }, s)
    | some message =>
      if message.isEmpty then
        ({ success := false, error := some "Failed to prepare safety message", sent_count := 0 }, s)
      else
        let successful_sends := (recipients.filter send).length
        ({ success := decide (0 < successful_sends), error := none,
           sent_count := successful_sends },
         { s with
             sms_sent_count := s.sms_sent_count + successful_sends,
             sms_sent_today := s.sms_sent_today + successful_sends })

/-- `SMSService.send_status_update` (smsService.py lines 215-266): no
rate-limit check; counters grow by the number of successful sends. -/
def send_status_update (s : SMSState) (update_data : List (String × String))
    (recipients : List String) (send : String → Bool) : SendResult × SMSState :=
  if recipients.isEmpty then
    ({ success := false, error := some "No recipients specified", sent_count := 0 }, s)
  else
    match prepare_status_message update_data with
    | none =>
      ({ success := false, error := some "Failed to prepare status message", sent_count := 0 }, s)
    | some message =>
      if message.isEmpty then
        ({ success := false, error := some "Failed to prepare status message", sent_count := 0 }, s)
      else
        let successful_sends := (recipients.filter send).length
        ({ success := decide (0 < successful_sends), error := none,
           sent_count := successful_sends },
         { s with
             sms_sent_count := s.sms_sent_count + successful_sends,
             sms_sent_today := s.sms_sent_today + successful_sends })

/-- `SMSService.reset_counters` (smsService.py lines 692-697). -/
def reset_counters (s : SMSState) (now : Nat) : SMSState :=
  { s with sms_sent_count := 0, sms_sent_today := 0, last_sms_reset := now }

/-- One call of the four counter-touching operations quantified over by claim
C2, with its arguments (send outcomes as oracles). -/
inductive SMSOp where
  | emergency (alert_data : List (String × String)) (recipients : List String)
      (alert_type : String) (now : Nat) (send : String → Bool)
  | safety (notification_data : List (String × String)) (recipients : List String)
      (notification_type : String) (send : String → Bool)
  | status (update_data : List (String × String)) (recipients : List String)
      (send : String → Bool)
  | rateCheck (now : Nat) (additional_sms : Nat)

/-- The state transformation of one `SMSOp`. -/
def SMSOp.apply (s : SMSState) : SMSOp → SMSState
  | .emergency alert_data recipients alert_type now send =>
    (send_emergency_alert s alert_data recipients alert_type now send).2
  | .safety notification_data recipients notification_type send =>
    (send_safety_notification s notification_data recipients notification_type send).2
  | .status update_data recipients send =>
    (send_status_update s update_data recipients send).2
  | .rateCheck now additional_sms => (check_rate_limits s now additional_sms).2

/-- Run a sequence of operations against the service. -/
def run_sms_ops (s : SMSState) : List SMSOp → SMSState
  | [] => s
  | op :: rest => run_sms_ops (op.apply s) rest

/-! ### Rate-limiter lemmas and theorems: claims C2, C3, C4, C5 -/

lemma daily_reset_sms_sent_count (s : SMSState) (now : Nat) :
    (daily_reset s now).sms_sent_count = s.sms_sent_count := by
  unfold daily_reset; split <;> rfl

lemma daily_reset_max_per_hour (s : SMSState) (now : Nat) :
    (daily_reset s now).max_sms_per_hour = s.max_sms_per_hour := by
  unfold daily_reset; split <;> rfl

lemma daily_reset_max_per_day (s : SMSState) (now : Nat) :
    (daily_reset s now).max_sms_per_day = s.max_sms_per_day := by
  unfold daily_reset; split <;> rfl

lemma daily_reset_sms_sent_today (s : SMSState) (now : Nat) :
    (daily_reset s now).sms_sent_today =
      if dateOf s.last_sms_reset < dateOf now then 0 else s.sms_sent_today := by
  unfold daily_reset; split <;> simp_all

lemma check_rate_limits_snd (s : SMSState) (now n : Nat) :
    (check_rate_limits s now n).2 = daily_reset s now := by
  simp only [check_rate_limits]
  split
  · rfl
  · split <;> rfl

lemma check_rate_limits_fst (s : SMSState) (now n : Nat) :
    (check_rate_limits s now n).1 = false ↔
      (s.max_sms_per_hour ≤ s.sms_sent_count ∨
        s.max_sms_per_day < (daily_reset s now).sms_sent_today + n) := by
  simp only [check_rate_limits]
  split <;> rename_i h1
  · rw [daily_reset_max_per_hour, daily_reset_sms_sent_count] at h1
    simp [h1]
  · split <;> rename_i h2
    · rw [daily_reset_max_per_day] at h2
      simp [h2]
    · rw [daily_reset_max_per_hour, daily_reset_sms_sent_count] at h1
      rw [daily_reset_max_per_day] at h2
      simp [h1, h2]

/-- C3: `_check_rate_limits(N)` rejects exactly when, after the daily reset,
the hourly counter has reached the hourly maximum (a test that ignores N) or
the daily counter plus N exceeds the daily maximum. -/
theorem C3_rate_limit_reject_iff (s : SMSState) (now n : Nat) :
    (check_rate_limits s now n).1 = false ↔
      (s.max_sms_per_hour ≤ s.sms_sent_count ∨
        s.max_sms_per_day <
          (if dateOf s.last_sms_reset < dateOf now then 0 else s.sms_sent_today) + n) := by
  rw [check_rate_limits_fst, daily_reset_sms_sent_today]

/-- C5: `_check_rate_limits` zeroes the daily counter exactly when the current
calendar date is strictly past the date of `last_sms_reset`; within one
calendar date it never resets, and any date rollover resets it even when fewer
than 24 hours (86400 s) have elapsed. -/
theorem C5_daily_reset_on_date_rollover (s : SMSState) (now n : Nat) :
    ((check_rate_limits s now n).2.sms_sent_today =
        if dateOf s.last_sms_reset < dateOf now then 0 else s.sms_sent_today) ∧
    (dateOf now = dateOf s.last_sms_reset →
        (check_rate_limits s now n).2.sms_sent_today = s.sms_sent_today) ∧
    (dateOf s.last_sms_reset < dateOf now → now < s.last_sms_reset + 86400 →
        (check_rate_limits s now n).2.sms_sent_today = 0) := by
  rw [check_rate_limits_snd, daily_reset_sms_sent_today]
  refine ⟨rfl, ?_, ?_⟩
  · intro h; simp [h]
  · intro h _; simp [h]

/-- Witness for C5: with `last_sms_reset` at 23:00 of day 0 and `now` one hour
later (a date rollover after only 3601 s), the daily counter resets; with the
same-calendar-day pair (0, 3600) it does not. -/
theorem C5_witness :
    (check_rate_limits ⟨100, 1000, 7, 5, 82800⟩ 86401 0).2.sms_sent_today = 0 ∧
    (check_rate_limits ⟨100, 1000, 7, 5, 0⟩ 3600 0).2.sms_sent_today = 5 := by
  constructor
  · exact (C5_daily_reset_on_date_rollover ⟨100, 1000, 7, 5, 82800⟩ 86401 0).2.2
      (by decide) (by decide)
  · exact (C5_daily_reset_on_date_rollover ⟨100, 1000, 7, 5, 0⟩ 3600 0).2.1 (by decide)

lemma send_emergency_alert_count_le (s : SMSState) (alert_data : List (String × String))
    (recipients : List String) (alert_type : String) (now : Nat) (send : String → Bool) :
    s.sms_sent_count ≤ (send_emergency_alert s alert_data recipients alert_type now send).2.sms_sent_count := by
  simp only [send_emergency_alert]
  repeat' split
  all_goals simp only [check_rate_limits_snd, daily_reset_sms_sent_count]
  all_goals omega

lemma send_safety_notification_count_le (s : SMSState) (notification_data : List (String × String))
    (recipients : List String) (notification_type : String) (send : String → Bool) :
    s.sms_sent_count ≤ (send_safety_notification s notification_data recipients notification_type send).2.sms_sent_count := by
  unfold send_safety_notification
  split
  · exact le_refl _
  · split
    · exact le_refl _
    · split
      · exact le_refl _
      · exact Nat.le_add_right _ _

lemma send_status_update_count_le (s : SMSState) (update_data : List (String × String))
    (recipients : List String) (send : String → Bool) :
    s.sms_sent_count ≤ (send_status_update s update_data recipients send).2.sms_sent_count := by
  unfold send_status_update
  split
  · exact le_refl _
  · split
    · exact le_refl _
    · split
      · exact le_refl _
      · exact Nat.le_add_right _ _

lemma SMSOp.apply_count_le (s : SMSState) (op : SMSOp) :
    s.sms_sent_count ≤ (op.apply s).sms_sent_count := by
  cases op with
  | emergency alert_data recipients alert_type now send =>
    exact send_emergency_alert_count_le s alert_data recipients alert_type now send
  | safety notification_data recipients notification_type send =>
    exact send_safety_notification_count_le s notification_data recipients notification_type send
  | status update_data recipients send =>
    exact send_status_update_count_le s update_data recipients send
  | rateCheck now additional_sms =>
    rw [SMSOp.apply, check_rate_limits_snd, daily_reset_sms_sent_count]

lemma run_sms_ops_count_le (s : SMSState) (ops : List SMSOp) :
    s.sms_sent_count ≤ (run_sms_ops s ops).sms_sent_count := by
  induction ops generalizing s with
  | nil => exact le_refl _
  | cons op rest ih => exact le_trans (SMSOp.apply_count_le s op) (ih (op.apply s))

/-- C2: along every sequence of `send_emergency_alert`,
`send_safety_notification`, `send_status_update` and `_check_rate_limits`
calls, the hourly counter `sms_sent_count` never decreases (the daily-reset
branch touches only `sms_sent_today`); only the explicit `reset_counters`
zeroes it. -/
theorem C2_hourly_counter_never_decreases :
    (∀ (s : SMSState) (ops : List SMSOp),
        s.sms_sent_count ≤ (run_sms_ops s ops).sms_sent_count) ∧
    (∀ (s : SMSState) (now : Nat), (reset_counters s now).sms_sent_count = 0) :=
  ⟨run_sms_ops_count_le, fun _ _ => rfl⟩

lemma check_rate_limits_of_hourly_reached (s : SMSState) (now n : Nat)
    (h : s.max_sms_per_hour ≤ s.sms_sent_count) :
    check_rate_limits s now n = (false, daily_reset s now) := by
  simp only [check_rate_limits]
  rw [if_pos]
  rw [daily_reset_max_per_hour, daily_reset_sms_sent_count]
  exact h

lemma send_emergency_alert_rate_limited (s : SMSState) (alert_data : List (String × String))
    (recipients : List String) (alert_type : String) (now : Nat) (send : String → Bool)
    (hcount : s.max_sms_per_hour ≤ s.sms_sent_count)
    (hvalid : validate_alert_data alert_data = true)
    (hrec : recipients.isEmpty = false) :
    send_emergency_alert s alert_data recipients alert_type now send
      = ({ success := false, error := some "Rate limit exceeded", sent_count := 0 },
         daily_reset s now) := by
  simp only [send_emergency_alert, hrec, hvalid,
    check_rate_limits_of_hourly_reached s now recipients.length hcount,
    Bool.not_true, Bool.not_false, Bool.false_eq_true, if_false, if_true]

/-- C4 counterexample: with the hourly counter at its maximum (100), valid
alert data, one recipient, and a calendar-date rollover since
`last_sms_reset`, the rejected `send_emergency_alert` call nevertheless
changes `sms_sent_today` (the daily reset inside `_check_rate_limits` zeroes
it from 5), refuting "leaves both counters unchanged". -/
theorem C4_counterexample :
    (send_emergency_alert ⟨100, 1000, 100, 5, 0⟩
        [("location", "park"), ("contact_number", "5551234567")]
        ["5551234567"] "sos_alert" 86400 (fun _ => true)).1
      = { success := false, error := some "Rate limit exceeded", sent_count := 0 } ∧
    (send_emergency_alert ⟨100, 1000, 100, 5, 0⟩
        [("location", "park"), ("contact_number", "5551234567")]
        ["5551234567"] "sos_alert" 86400 (fun _ => true)).2.sms_sent_today
      ≠ (⟨100, 1000, 100, 5, 0⟩ : SMSState).sms_sent_today := by
  constructor
  · decide
  · decide

/-- C4 (amended): when the hourly counter has reached `max_sms_per_hour`, a
`send_emergency_alert` call with valid alert data and a non-empty recipient
list is rejected with success = false, error "Rate limit exceeded" and
sent_count = 0; `sms_sent_count` is unchanged, and `sms_sent_today` is
unchanged except that the daily reset inside the rate check zeroes it when
the calendar date has rolled over since `last_sms_reset`. -/
theorem C4_amended_rate_limited_reject (s : SMSState) (alert_data : List (String × String))
    (recipients : List String) (alert_type : String) (now : Nat) (send : String → Bool)
    (hcount : s.max_sms_per_hour ≤ s.sms_sent_count)
    (hvalid : validate_alert_data alert_data = true)
    (hrec : recipients ≠ []) :
    (send_emergency_alert s alert_data recipients alert_type now send).1
        = { success := false, error := some "Rate limit exceeded", sent_count := 0 } ∧
    (send_emergency_alert s alert_data recipients alert_type now send).2.sms_sent_count
        = s.sms_sent_count ∧
    (send_emergency_alert s alert_data recipients alert_type now send).2.sms_sent_today
        = (if dateOf s.last_sms_reset < dateOf now then 0 else s.sms_sent_today) := by
  have hrec' : recipients.isEmpty = false := by
    cases recipients with
    | nil => exact absurd rfl hrec
    | cons a l => rfl
  rw [send_emergency_alert_rate_limited s alert_data recipients alert_type now send
    hcount hvalid hrec']
  exact ⟨rfl, daily_reset_sms_sent_count s now, daily_reset_sms_sent_today s now⟩

/-- Witness for C4 (amended) at a concrete same-calendar-day input: the call
is rejected and `sms_sent_today` keeps its value 5. -/
theorem C4_witness :
    (send_emergency_alert ⟨100, 1000, 100, 5, 0⟩
        [("location", "park"), ("contact_number", "5551234567")]
        ["5551234567"] "sos_alert" 3600 (fun _ => true)).1.error
      = some "Rate limit exceeded" ∧
    (send_emergency_alert ⟨100, 1000, 100, 5, 0⟩
        [("location", "park"), ("contact_number", "5551234567")]
        ["5551234567"] "sos_alert" 3600 (fun _ => true)).2.sms_sent_today = 5 := by
  have h := C4_amended_rate_limited_reject ⟨100, 1000, 100, 5, 0⟩
    [("location", "park"), ("contact_number", "5551234567")]
    ["5551234567"] "sos_alert" 3600 (fun _ => true)
    (by decide) (by decide) (by decide)
  refine ⟨?_, ?_⟩
  · rw [h.1]
  · rw [h.2.2]
    decide

/-! ### TTS file cache (backend/services/ttsService.py)

The cache directory is modelled as a list of files (name, byte content,
mtime); `datetime.now().timestamp()` values and mtimes are epoch seconds
(`Int`).  External calls (`TextCleaner.clean_text`, `hashlib.md5`, gTTS
synthesis) are oracle function parameters of `convert_text_to_speech`.

A load-bearing fact of the source: ttsService.py's import list (lines 1-13:
os, io, logging, asyncio, typing, gtts, tempfile, uuid, pathlib,
utils.textCleaner, utils.timeUtils) never binds the name `datetime`, so the
expression `datetime.now()` in `_is_cache_expired` (line 385) raises
`NameError` on every call, and the `except` arm (lines 388-389) makes the
method return `True` for every file. -/

/-- Whether the module-scope name `datetime` is bound in ttsService.py: it is
not (no `import datetime` / `from datetime import ...` appears in the file),
so the body of `_is_cache_expired` cannot evaluate `datetime.now()`. -/
def datetime_bound_in_ttsService : Bool := false

/-- A Python exception, for the failure modes the modelled code can hit. -/
inductive PyExc where
  | nameError
deriving DecidableEq

/-- One file of the TTS cache directory. -/
structure CacheFile where
  name : String
  content : List Nat
  mtime : Int
deriving DecidableEq

/-- The cache directory. -/
abbrev CacheDir := List CacheFile

/-- The `TTSService` configuration read from the environment at construction
(ttsService.py lines 25-39): `max_cache_size` is in bytes, `cache_ttl_hours`
in hours. -/
structure TTSConfig where
  default_language : String
  default_slow : Bool
  audio_format : String
  supported_languages : List String
  max_cache_size : Nat
  cache_ttl_hours : Nat
deriving DecidableEq

/-- The try-block of `TTSService._is_cache_expired` (ttsService.py lines
384-387): it would compare the file age against the TTL, but evaluating
`datetime.now()` raises `NameError` because the name is unbound. -/
def is_cache_expired_body (cfg : TTSConfig) (now mtime : Int) : Except PyExc Bool :=
  if datetime_bound_in_ttsService then
    .ok (decide ((cfg.cache_ttl_hours : Int) * 3600 < now - mtime))
  else
    .error PyExc.nameError

/-- `TTSService._is_cache_expired` (ttsService.py lines 382-389): the
`except` arm returns `True` ("consider expired if we can't check"), so with
the unbound `datetime` this is constantly `true`. -/
def is_cache_expired (cfg : TTSConfig) (now mtime : Int) : Bool :=
  match is_cache_expired_body cfg now mtime with
  | .ok b => b
  | .error _ => true

/-- The file name `{cache_key}.{self.audio_format}` used by both
`_get_cached_audio` (line 335) and `_cache_audio` (line 356); note it uses
the service's configured format, not the requested one. -/
def cache_file_name (cfg : TTSConfig) (cache_key : String) : String :=
  cache_key ++ "." ++ cfg.audio_format

/-- `TTSService._get_cached_audio` (ttsService.py lines 332-351): `None` when
the file does not exist; if it exists but is expired, unlink it and return
`None`; otherwise return its bytes.  Returns the read result together with
the directory after any unlink. -/
def get_cached_audio (cfg : TTSConfig) (dir : CacheDir) (now : Int) (cache_key : String) :
    Option (List Nat) × CacheDir :=
  match dir.find? (fun f => f.name == cache_file_name cfg cache_key) with
  | none => (none, dir)
  | some f =>
    if is_cache_expired cfg now f.mtime then
      (none, dir.filter (fun g => !(g.name == cache_file_name cfg cache_key)))
    else
      (some f.content, dir)

/-- `TTSService._cache_audio` (ttsService.py lines 353-364): write (or
overwrite) the key's file; its mtime becomes the current time. -/
def cache_audio (cfg : TTSConfig) (dir : CacheDir) (now : Int) (cache_key : String)
    (audio_data : List Nat) : CacheDir :=
  { name := cache_file_name cfg cache_key, content := audio_data, mtime := now } ::
    dir.filter (fun g => !(g.name == cache_file_name cfg cache_key))

/-- Membership in the glob `*.{self.audio_format}` that every cache walk uses
(lines 371, 401, 422). -/
def matches_cache_glob (cfg : TTSConfig) (f : CacheFile) : Bool :=
  ("." ++ cfg.audio_format).data.isSuffixOf f.name.data

/-- `TTSService._get_cache_size` (ttsService.py lines 418-426): total size of
the glob-matched files. -/
def get_cache_size (cfg : TTSConfig) (dir : CacheDir) : Nat :=
  (dir.filter (matches_cache_glob cfg)).foldl (fun total f => total + f.content.length) 0

/-- Stable insertion into a list sorted by ascending mtime. -/
def insert_by_mtime (f : CacheFile) : List CacheFile → List CacheFile
  | [] => [f]
  | g :: rest => if f.mtime < g.mtime then f :: g :: rest else g :: insert_by_mtime f rest

/-- Python's stable `sorted(..., key=lambda x: x.stat().st_mtime)` (line
400-403). -/
def sort_by_mtime (files : List CacheFile) : List CacheFile :=
  files.foldl (fun acc f => insert_by_mtime f acc) []

/-- The deletion loop of `_enforce_cache_size_limit` (ttsService.py lines
406-413): walk the mtime-sorted files, stop once the running size is within
the limit, otherwise delete and subtract.  Returns the names deleted. -/
def remove_oldest : List CacheFile → Nat → Nat → List String
  | [], _, _ => []
  | f :: rest, current_size, max_size =>
    if current_size ≤ max_size then []
    else f.name :: remove_oldest rest (current_size - f.content.length) max_size

/-- `TTSService._enforce_cache_size_limit` (ttsService.py lines 391-416). -/
def enforce_cache_size_limit (cfg : TTSConfig) (dir : CacheDir) : CacheDir :=
  let current_size := get_cache_size cfg dir
  if current_size ≤ cfg.max_cache_size then dir
  else
    let victims := remove_oldest (sort_by_mtime (dir.filter (matches_cache_glob cfg)))
      current_size cfg.max_cache_size
    dir.filter (fun f => !(victims.contains f.name))

/-- `TTSService._cleanup_cache` (ttsService.py lines 366-380): unlink every
glob-matched file that `_is_cache_expired` reports expired, then enforce the
size limit. -/
def cleanup_cache (cfg : TTSConfig) (now : Int) (dir : CacheDir) : CacheDir :=
  enforce_cache_size_limit cfg
    (dir.filter (fun f => !(matches_cache_glob cfg f && is_cache_expired cfg now f.mtime)))

/-- `TTSService._generate_cache_key` (ttsService.py lines 318-330): MD5 hex
digest (oracle `md5`) of the underscore-joined parameters; Python f-string
renders the bool as "True"/"False". -/
def generate_cache_key (md5 : String → String) (text language : String) (slow : Bool)
    (format_type : String) : String :=
  md5 (text ++ "_" ++ language ++ "_" ++ pyBoolStr slow ++ "_" ++ format_type)

/-- Python `x or default` on an optional string (empty string is falsy). -/
def pyOrStr (x : Option String) (default : String) : String :=
  match x with
  | some s => if s.isEmpty then default else s
  | none => default

/-- The subset of the `convert_text_to_speech` result dictionary the claims
inspect. -/
structure TTSResult where
  success : Bool
  audio_data : Option (List Nat)
  cached : Bool
  error : Option String
deriving DecidableEq

/-- `TTSService.convert_text_to_speech` (ttsService.py lines 43-122).
`clean` is `TextCleaner.clean_text`, `md5` the hex digest, `gtts` the gTTS
synthesis call of `_generate_speech` (`none` models its caught failure).
Returns the result together with the directory after the call's writes,
unlinks and sweep. -/
def convert_text_to_speech (cfg : TTSConfig) (clean md5 : String → String)
    (gtts : String → String → Bool → Option (List Nat)) (dir : CacheDir) (now : Int)
    (text : String) (language : Option String) (slow : Option Bool)
    (audio_format : Option String) : TTSResult × CacheDir :=
  let cleaned_text := clean text
  if cleaned_text.isEmpty then
    ({ success := false, audio_data := none, cached := false,
       error := some "Invalid or empty text input" }, dir)
  else
    let lang := pyOrStr language cfg.default_language
    let slow_speech := slow.getD cfg.default_slow
    let format_type := pyOrStr audio_format cfg.audio_format
    if !(cfg.supported_languages.contains lang) then
      ({ success := false, audio_data := none, cached := false,
         error := some ("Unsupported language: " ++ lang) }, dir)
    else
      let cache_key := generate_cache_key md5 cleaned_text lang slow_speech format_type
      let looked := get_cached_audio cfg dir now cache_key
      match looked.1 with
      | some cached_audio =>
        ({ success := true, audio_data := some cached_audio, cached := true, error := none },
         looked.2)
      | none =>
        match gtts cleaned_text lang slow_speech with
        | none =>
          ({ success := false, audio_data := none, cached := false,
             error := some "Failed to generate speech audio" }, looked.2)
        | some audio_data =>
          ({ success := true, audio_data := some audio_data, cached := false, error := none },
           cleanup_cache cfg now (cache_audio cfg looked.2 now cache_key audio_data))

/-! ### TTS cache lemmas and theorems: claims C1 and C8 -/

lemma is_cache_expired_true (cfg : TTSConfig) (now mtime : Int) :
    is_cache_expired cfg now mtime = true := rfl

lemma get_cached_audio_fst_none (cfg : TTSConfig) (dir : CacheDir) (now : Int)
    (cache_key : String) : (get_cached_audio cfg dir now cache_key).1 = none := by
  unfold get_cached_audio
  cases h : dir.find? (fun f => f.name == cache_file_name cfg cache_key) with
  | none => rfl
  | some f => simp [is_cache_expired_true]

/-- C1 (refuted behaviour, stated of the code): because ttsService.py never
imports `datetime`, `_is_cache_expired` always reports expiry, so
`_get_cached_audio` never returns cached bytes and every
`convert_text_to_speech` call — in particular the second of two identical
calls — returns `cached = false`; the claimed cache hit is unreachable. -/
theorem C1_cache_never_hits :
    (∀ (cfg : TTSConfig) (dir : CacheDir) (now : Int) (cache_key : String),
        (get_cached_audio cfg dir now cache_key).1 = none) ∧
    (∀ (cfg : TTSConfig) (clean md5 : String → String)
        (gtts : String → String → Bool → Option (List Nat)) (dir : CacheDir) (now : Int)
        (text : String) (language : Option String) (slow : Option Bool)
        (audio_format : Option String),
        (convert_text_to_speech cfg clean md5 gtts dir now text language slow
            audio_format).1.cached = false) := by
  refine ⟨get_cached_audio_fst_none, ?_⟩
  intro cfg clean md5 gtts dir now text language slow audio_format
  simp only [convert_text_to_speech, get_cached_audio_fst_none]
  split
  · rfl
  · split
    · rfl
    · split <;> rfl

lemma cleanup_filter_eq (cfg : TTSConfig) (now : Int) (dir : CacheDir) :
    dir.filter (fun f => !(matches_cache_glob cfg f && is_cache_expired cfg now f.mtime))
      = dir.filter (fun f => !matches_cache_glob cfg f) := by
  induction dir with
  | nil => rfl
  | cons f rest ih =>
    simp only [List.filter_cons, is_cache_expired_true, Bool.and_true, ih]

lemma get_cache_size_filter_not_match (cfg : TTSConfig) (dir : CacheDir) :
    get_cache_size cfg (dir.filter (fun f => !matches_cache_glob cfg f)) = 0 := by
  unfold get_cache_size
  have h : (dir.filter (fun f => !matches_cache_glob cfg f)).filter (matches_cache_glob cfg)
      = [] := by
    induction dir with
    | nil => rfl
    | cons f rest ih =>
      by_cases hf : matches_cache_glob cfg f
      · simp [List.filter_cons, hf, ih]
      · simp [List.filter_cons, hf, ih]
  rw [h]
  rfl

lemma cleanup_cache_eq (cfg : TTSConfig) (now : Int) (dir : CacheDir) :
    cleanup_cache cfg now dir = dir.filter (fun f => !matches_cache_glob cfg f) := by
  unfold cleanup_cache
  rw [cleanup_filter_eq]
  simp only [enforce_cache_size_limit, get_cache_size_filter_not_match, Nat.zero_le, if_true]

/-- A concrete `TTSService` configuration with the source defaults
(ttsService.py lines 25-39): format "mp3", 100 MiB budget, 24 h TTL. -/
def tts_demo_cfg : TTSConfig :=
  { default_language := "en", default_slow := false, audio_format := "mp3",
    supported_languages := ["en"], max_cache_size := 104857600, cache_ttl_hours := 24 }

/-- C8 (refuted behaviour, stated of the code): the sweep `_cleanup_cache`
removes every glob-matched cache file whatever its age or size — with the
unbound `datetime`, `_is_cache_expired` is constantly true — so a zero-age
3-byte file under a 100 MiB budget and 24 h TTL is deleted, and the size
phase never runs on a non-empty set. -/
theorem C8_sweep_deletes_every_cache_file :
    (∀ (cfg : TTSConfig) (now : Int) (dir : CacheDir),
        cleanup_cache cfg now dir = dir.filter (fun f => !matches_cache_glob cfg f)) ∧
    cleanup_cache tts_demo_cfg 1000
        [{ name := "0cc175b9c0f1b6a831c399e269772661.mp3", content := [1, 2, 3],
           mtime := 1000 }] = [] :=
  ⟨cleanup_cache_eq, by decide⟩

/-! ### Chatbot fallback path (backend/services/gptService.py) -/

/-- `GPTService.fallback_responses["greeting"]` (gptService.py lines 43-47). -/
def fallback_responses_greeting : List String :=
  ["Hello! I\x27m SafeChild, your safety companion. How can I help you today?",
   "Hi there! I\x27m here to help you stay safe. What would you like to know?",
   "Welcome! I\x27m SafeChild, ready to help with safety questions and concerns."]

/-- `GPTService.fallback_responses["safety_tip"]` (gptService.py lines 48-52). -/
def fallback_responses_safety_tip : List String :=
  ["Remember: Your body belongs to you. No one should touch you in ways that make you uncomfortable.",
   "Always tell a trusted adult if something doesn\x27t feel right.",
   "It\x27s okay to say \x27NO\x27 if someone makes you feel unsafe or uncomfortable."]

/-- `GPTService.fallback_responses["emergency"]` (gptService.py lines 53-57). -/
def fallback_responses_emergency : List String :=
  ["If you\x27re in immediate danger, call emergency services right away.",
   "Tell a trusted adult immediately if you feel unsafe.",
   "Your safety is the most important thing. Don\x27t hesitate to ask for help."]

/-- `GPTService.fallback_responses["general"]` (gptService.py lines 58-62). -/
def fallback_responses_general : List String :=
  ["I\x27m here to help you learn about safety. What specific question do you have?",
   "That\x27s a great question about safety. Let me help you understand this better.",
   "Safety is important for everyone. I\x27m happy to help you learn more."]

/-- `GPTService.fallback_responses` (gptService.py lines 42-63). -/
def fallback_responses : List (String × List String) :=
  [("greeting", fallback_responses_greeting),
   ("safety_tip", fallback_responses_safety_tip),
   ("emergency", fallback_responses_emergency),
   ("general", fallback_responses_general)]

/-- `self.fallback_responses.get(response_type, self.fallback_responses["general"])`
(gptService.py line 397). -/
def fallback_responses_get (response_type : String) : List String :=
  match fallback_responses.find? (fun p => p.1 == response_type) with
  | some p => p.2
  | none => fallback_responses_general

/-- The subset of the chatbot response dictionary the claim inspects
(`success`, `response`, `fallback`, `error`); `model`/`tokens_used`/timestamps
are omitted. -/
structure ChatResult where
  success : Bool
  response : String
  fallback : Bool
  error : Option String
deriving DecidableEq

/-- `GPTService._get_fallback_response` (gptService.py lines 393-406):
`random.choice` over the type's canned list is modelled by an oracle index
`k`, reduced modulo the list length. -/
def get_fallback_response (k : Nat) (response_type : String) : ChatResult :=
  let responses := fallback_responses_get response_type
  { success := false,
    response := responses.getD (k % responses.length) "",
    fallback := true,
    error := some "GPT service unavailable, using fallback response" }

/-- What the external pieces of one `get_chatbot_response` call do:
`ai_manager.get_provider()` raises, `provider.chat(...)` raises, or the chat
completes and `ai.get("content")` yields the given optional string. -/
inductive ProviderOutcome where
  | getProviderRaises
  | chatRaises
  | returns (content : Option String)
deriving DecidableEq

/-- The early return of gptService.py lines 77-82 for a message that cleans
to an empty (falsy) string. -/
def invalid_message_result : ChatResult :=
  { success := false,
    response := "I couldn\x27t understand your message. Could you please rephrase it?",
    fallback := false,
    error := some "Invalid message content" }

/-- `GPTService.get_chatbot_response` (gptService.py lines 65-111): the whole
body sits in one `try`, whose `except` arm returns
`_get_fallback_response(message, "general")`, as does a falsy
`ai.get("content")`.  `clean` is `TextCleaner.clean_text`; `chat_history`
only feeds the conversation context sent to the provider. -/
def get_chatbot_response (clean : String → String) (outcome : ProviderOutcome) (k : Nat)
    (message : String) (chat_history : List (String × String)) : ChatResult :=
  match outcome with
  | .getProviderRaises => get_fallback_response k "general"
  | .chatRaises =>
    let cleaned_message := clean message
    if cleaned_message.isEmpty then invalid_message_result
    else get_fallback_response k "general"
  | .returns content =>
    let cleaned_message := clean message
    if cleaned_message.isEmpty then invalid_message_result
    else
      match content with
      | none => get_fallback_response k "general"
      | some ai_response =>
        if ai_response.isEmpty then get_fallback_response k "general"
        else
          { success := true, response := clean ai_response, fallback := false, error := none }

/-! ### Theorem: claim C9 -/

lemma list_getD_mem (l : List String) (n : Nat) (h : n < l.length) : l.getD n "" ∈ l := by
  induction l generalizing n with
  | nil => simp at h
  | cons a t ih =>
    cases n with
    | zero => simp [List.getD]
    | succ m =>
      have hm : m < t.length := by simpa using h
      have hmem := ih m hm
      simp only [List.getD] at hmem ⊢
      rw [List.get?_cons_succ]
      exact List.mem_cons_of_mem a hmem

lemma fallback_get_general : fallback_responses_get "general" = fallback_responses_general := by
  decide

lemma fallback_general_pick_mem (k : Nat) :
    (fallback_responses_get "general").getD (k % (fallback_responses_get "general").length) ""
      ∈ fallback_responses_general := by
  rw [fallback_get_general]
  exact list_getD_mem _ _ (Nat.mod_lt _ (by decide))

/-- C9: when the external chat call fails — the provider raises, or the
returned content is missing or empty — `get_chatbot_response` still returns
(no exception escapes: the model is a total function covering every raise
path) and the result is the fallback object: success = false,
fallback = true, and one of the hardcoded "general" canned strings. -/
theorem C9_fallback_on_provider_failure (clean : String → String) (outcome : ProviderOutcome)
    (k : Nat) (message : String) (chat_history : List (String × String))
    (hmsg : (clean message).isEmpty = false)
    (hfail : outcome = .chatRaises ∨ outcome = .returns none ∨ outcome = .returns (some "")) :
    (get_chatbot_response clean outcome k message chat_history).success = false ∧
    (get_chatbot_response clean outcome k message chat_history).fallback = true ∧
    (get_chatbot_response clean outcome k message chat_history).response
      ∈ fallback_responses_general := by
  have hfb : ∀ kk : Nat, (get_fallback_response kk "general").success = false ∧
      (get_fallback_response kk "general").fallback = true ∧
      (get_fallback_response kk "general").response ∈ fallback_responses_general := by
    intro kk
    exact ⟨rfl, rfl, fallback_general_pick_mem kk⟩
  rcases hfail with h | h | h <;> subst h <;>
    simp only [get_chatbot_response, hmsg, Bool.false_eq_true, if_false] <;>
    exact hfb k

/-- Witness for C9 at a concrete input: identity cleaner, message "hi",
provider chat returning no content, choice index 0. -/
theorem C9_witness :
    (get_chatbot_response (fun s => s) (.returns none) 0 "hi" []).success = false ∧
    (get_chatbot_response (fun s => s) (.returns none) 0 "hi" []).fallback = true := by
  have h := C9_fallback_on_provider_failure (fun s => s) (.returns none) 0 "hi" []
    (by decide) (Or.inr (Or.inl rfl))
  exact ⟨h.1, h.2.1⟩
